import Mathlib

/-!
Shallow embedding of the yaglw GPU buffer / vertex-array subsystem
(src/vertex_buffer.rs, src/shader.rs).

Device memory is modelled as a total byte store `Nat → Nat`; a raw byte
pointer `*const u8` together with its count is modelled the same way
(a function from offsets to bytes plus an explicit count).  Rust `usize`
arithmetic is modelled on `Nat`; a subtraction that would go below zero
is an arithmetic-overflow panic, and every `assert!`/panic path is made
explicit (`Option`, or an explicit `panicked` flag where the state at
panic time matters).
-/

/-- `gl::BufferSubData(ARRAY_BUFFER, idx, count, vs)`: overwrite the
`count` bytes at offsets `[idx, idx+count)` with the bytes of `vs`. -/
def glBufferSubData (mem : Nat → Nat) (idx : Nat) (vs : Nat → Nat) (count : Nat) :
    Nat → Nat :=
  fun j => if idx ≤ j ∧ j < idx + count then vs (j - idx) else mem j

/-- `gl::CopyBufferSubData(ARRAY_BUFFER, ARRAY_BUFFER, readOffset, writeOffset, size)`:
device-to-device copy of `size` bytes (the source bytes are read from the
pre-call state; the code asserts the two ranges never overlap). -/
def glCopyBufferSubData (mem : Nat → Nat) (readOffset writeOffset size : Nat) :
    Nat → Nat :=
  glBufferSubData mem writeOffset (fun m => mem (readOffset + m)) size

/-- The OpenGL error code `gl::NO_ERROR`. -/
def glNO_ERROR : Nat := 0

/-- The OpenGL error code `gl::OUT_OF_MEMORY` (0x0505). -/
def glOUT_OF_MEMORY : Nat := 1285

/-- The OpenGL error code `gl::INVALID_VALUE` (0x0501). -/
def glINVALID_VALUE : Nat := 1281

/-- What a construction-time error poll does with the device's error code. -/
inductive GLErrorOutcome
  | ok
  | fatal
  | warned
deriving DecidableEq

/-- The `match gl_context.get_error()` at the end of `GLByteBuffer::new`:
no-error falls through, `OUT_OF_MEMORY` panics ("Out of VRAM"), any other
code is only logged with `warn!`. -/
def byteBufferNewErrorCheck (err : Nat) : GLErrorOutcome :=
  if err = glNO_ERROR then GLErrorOutcome.ok
  else if err = glOUT_OF_MEMORY then GLErrorOutcome.fatal
  else GLErrorOutcome.warned

/-- The `match unsafe { gl::GetError() }` in `GLArray::new`: no-error falls
through, every other code is only logged with `warn!`. -/
def glArrayNewErrorCheck (err : Nat) : GLErrorOutcome :=
  if err = glNO_ERROR then GLErrorOutcome.ok else GLErrorOutcome.warned

/-- `BufferHandle::new`: `gl::GenBuffers` returns `gl_id`; the constructor
then runs `assert!(gl_id != 0)`.  `none` models the panic. -/
def BufferHandle.new (gl_id : Nat) : Option Nat :=
  if gl_id ≠ 0 then some gl_id else none

/-- `ArrayHandle::new`: `gl::GenVertexArrays` returns `gl_id` and the handle
is built directly; the source contains no assertion on `gl_id`. -/
def ArrayHandle.new (gl_id : Nat) : Option Nat :=
  some gl_id

/-- `ProgramHandle::new`: `gl::CreateProgram` returns `gl_id`; the
constructor then runs `assert!(gl_id != 0)`. -/
def ProgramHandle.new (gl_id : Nat) : Option Nat :=
  if gl_id ≠ 0 then some gl_id else none

/-- `ShaderHandle::compile_from`: `gl::CreateShader` returns `gl_id`,
checked by `assert!(gl_id != 0)`; then the shader is compiled and a
compile status other than `gl::TRUE` (1) panics with the driver log. -/
def ShaderHandle.compile_from (gl_id : Nat) (compile_status : Int) : Option Nat :=
  if gl_id ≠ 0 then
    if compile_status ≠ 1 then none else some gl_id
  else none

/-- `GLByteBuffer`: fixed-size VRAM buffer for individual bytes.
`data` is the device memory region backing it, `length` the number of live
bytes, `capacity` the fixed maximum. -/
structure GLByteBuffer where
  data : Nat → Nat
  length : Nat
  capacity : Nat

/-- `GLByteBuffer::new`: allocates `capacity` bytes of device memory
(uninitialized, modelled by the arbitrary initial store `mem0`) and starts
with `length = 0`.  The error poll at the end is `byteBufferNewErrorCheck`. -/
def GLByteBuffer.new (mem0 : Nat → Nat) (capacity : Nat) : GLByteBuffer :=
  { data := mem0, length := 0, capacity := capacity }

/-- `GLByteBuffer::update_inner`: `assert!(idx + count <= self.capacity)`
then `gl::BufferSubData`.  `none` models the assertion panic. -/
def GLByteBuffer.update_inner (b : GLByteBuffer) (idx : Nat) (vs : Nat → Nat)
    (count : Nat) : Option GLByteBuffer :=
  if idx + count ≤ b.capacity then
    some { b with data := glBufferSubData b.data idx vs count }
  else none

/-- `GLByteBuffer::push`: returns `false` and does nothing if
`length + count > capacity`; otherwise `update_inner` at the tail offset,
then `self.length += count`, returning `true`. -/
def GLByteBuffer.push (b : GLByteBuffer) (vs : Nat → Nat) (count : Nat) :
    Option (Bool × GLByteBuffer) :=
  if b.capacity < b.length + count then some (false, b)
  else
    match b.update_inner b.length vs count with
    | none => none
    | some b2 => some (true, { b2 with length := b2.length + count })

/-- `GLByteBuffer::update`: `assert!(idx + count <= self.length)` then
`update_inner`. -/
def GLByteBuffer.update (b : GLByteBuffer) (idx : Nat) (vs : Nat → Nat)
    (count : Nat) : Option GLByteBuffer :=
  if idx + count ≤ b.length then b.update_inner idx vs count else none

/-- The observable outcome of `GLByteBuffer::swap_remove`: the buffer state
when the call returns or panics, whether it panicked, and whether a
device-side copy was issued. -/
structure SwapRemoveResult where
  st : GLByteBuffer
  panicked : Bool
  copied : Bool

/-- The tail of `GLByteBuffer::swap_remove`, entered after
`self.length -= count` has produced the shrunk state `b1`:
`assert!(i <= self.length)`; if `i < self.length`, evaluate
`self.length - count` (a `usize` subtraction, so a value of `count`
above `self.length` is an arithmetic-overflow panic), assert
`i <= self.length - count`, and issue the device copy from offset
`self.length` to offset `i` of `count` bytes. -/
def GLByteBuffer.swap_remove_after_shrink (b1 : GLByteBuffer) (i count : Nat) :
    SwapRemoveResult :=
  if i ≤ b1.length then
    if i < b1.length then
      if count ≤ b1.length then
        if i ≤ b1.length - count then
          { st := { b1 with data := glCopyBufferSubData b1.data b1.length i count },
            panicked := false, copied := true }
        else { st := b1, panicked := true, copied := false }
      else { st := b1, panicked := true, copied := false }
    else { st := b1, panicked := false, copied := false }
  else { st := b1, panicked := true, copied := false }

/-- `GLByteBuffer::swap_remove(i, count)`: `assert!(count <= self.length)`,
then `self.length -= count`, then the checks and the (possible) device copy
of `swap_remove_after_shrink`. -/
def GLByteBuffer.swap_remove (b : GLByteBuffer) (i count : Nat) : SwapRemoveResult :=
  if count ≤ b.length then
    GLByteBuffer.swap_remove_after_shrink { b with length := b.length - count } i count
  else { st := b, panicked := true, copied := false }

/-- `GLBuffer<T>`: fixed-size typed VRAM buffer, a wrapper of a byte buffer.
The element size `mem::size_of::<T>()` is passed to each operation as `k`. -/
structure GLBuffer where
  byte_buffer : GLByteBuffer

/-- The `mem::transmute(vs.as_ptr())` boundary: a slice of elements, each
given by its byte representation, read as a raw byte pointer. -/
def serializeElems (vs : List (List Nat)) : Nat → Nat :=
  fun j => (vs.flatten).getD j 0

/-- `GLBuffer::<T>::new`: a byte buffer of `capacity * mem::size_of::<T>()`
bytes. -/
def GLBuffer.new (k : Nat) (mem0 : Nat → Nat) (capacity : Nat) : GLBuffer :=
  { byte_buffer := GLByteBuffer.new mem0 (capacity * k) }

/-- `GLBuffer::<T>::push`: delegates to the byte buffer with the slice's
bytes and byte count `mem::size_of::<T>() * vs.len()`. -/
def GLBuffer.push (k : Nat) (b : GLBuffer) (vs : List (List Nat)) :
    Option (Bool × GLBuffer) :=
  match b.byte_buffer.push (serializeElems vs) (k * vs.length) with
  | none => none
  | some (r, bb) => some (r, { byte_buffer := bb })

/-- `GLBuffer::<T>::update`: delegates to the byte buffer at byte offset
`mem::size_of::<T>() * idx` with byte count `mem::size_of::<T>() * vs.len()`. -/
def GLBuffer.update (k : Nat) (b : GLBuffer) (idx : Nat) (vs : List (List Nat)) :
    Option GLBuffer :=
  match b.byte_buffer.update (k * idx) (serializeElems vs) (k * vs.length) with
  | none => none
  | some bb => some { byte_buffer := bb }

/-- `GLBuffer::<T>::swap_remove`: delegates to the byte buffer with byte
index `mem::size_of::<T>() * idx` and byte count `mem::size_of::<T>() * count`. -/
def GLBuffer.swap_remove (k : Nat) (b : GLBuffer) (idx count : Nat) :
    SwapRemoveResult :=
  b.byte_buffer.swap_remove (k * idx) (k * count)

/-- One call against a `GLByteBuffer`, for stating properties of call
sequences. -/
inductive BufOp
  | push (vs : Nat → Nat) (count : Nat)
  | update (idx : Nat) (vs : Nat → Nat) (count : Nat)
  | swap_remove (i count : Nat)

/-- Run one call; `none` models a panic (the `false` return of `push` is a
normal return). -/
def bufStep (op : BufOp) (b : GLByteBuffer) : Option GLByteBuffer :=
  match op with
  | BufOp.push vs count =>
    match b.push vs count with
    | none => none
    | some (_, b2) => some b2
  | BufOp.update idx vs count => b.update idx vs count
  | BufOp.swap_remove i count =>
    if (b.swap_remove i count).panicked then none else some (b.swap_remove i count).st

/-- Run a sequence of calls against a `GLByteBuffer`. -/
def runBufOps (ops : List BufOp) (b : GLByteBuffer) : Option GLByteBuffer :=
  match ops with
  | [] => some b
  | op :: rest =>
    match bufStep op b with
    | none => none
    | some b2 => runBufOps rest b2

/-- The byte representation of logical element `j` of a device store, for
elements of byte size `k`: bytes `[j*k, j*k + k)`. -/
def elemAt (k : Nat) (mem : Nat → Nat) (j : Nat) : List Nat :=
  (List.range k).map fun m => mem (j * k + m)

/-- `DrawMode` (how to draw a buffer). -/
inductive DrawMode
  | Lines
  | Triangles
  | Points
deriving DecidableEq

/-- `DrawMode::to_enum`: the GL enum value of the mode. -/
def DrawMode.to_enum : DrawMode → Nat
  | DrawMode.Lines => 1
  | DrawMode.Triangles => 4
  | DrawMode.Points => 0

/-- `GLType`: the component types of vertex attributes. -/
inductive GLType
  | Float
  | UInt
  | Int
deriving DecidableEq

/-- `GLType::size`: `mem::size_of` of the corresponding GL scalar type
(`GLfloat`, `GLuint`, `GLint` are all 4 bytes). -/
def GLType.size : GLType → Nat
  | GLType.Float => 4
  | GLType.UInt => 4
  | GLType.Int => 4

/-- `VertexAttribData`: one shader input's name, component count (`size`)
and component type (`unit`). -/
structure VertexAttribData where
  name : String
  size : Nat
  unit : GLType

/-- `u32` modulus. -/
def u32Mod : Nat := 4294967296

/-- The `attrib_span` accumulation loop of `GLArray::new`:
`attrib_span += attrib.size * attrib.unit.size()` in `u32` arithmetic
(multiplication and addition wrap at 2^32). -/
def attribSpan (attribs : List VertexAttribData) : Nat :=
  attribs.foldl (fun acc a => (acc + a.size * a.unit.size % u32Mod) % u32Mod) 0

/-- The mathematical (unwrapped) sum of the attributes' byte widths,
`component_count * component-type size` summed in order. -/
def attribByteWidthSum (attribs : List VertexAttribData) : Nat :=
  (attribs.map fun a => a.size * a.unit.size).sum

/-- `GLArray<T>`: a typed buffer bound to shader attributes, with the draw
mode enum and a `length` in elements. -/
structure GLArray where
  buffer : GLBuffer
  mode : Nat
  length : Nat

/-- `GLArray::<T>::new`: binds each attribute in order, panicking
(`assert!(shader_attrib != -1)`) when the shader has no input of that name
(`locs` models `glGetAttribLocation` against the program); after the loop
and the (non-fatal) error poll, `assert_eq!(attrib_span as usize,
mem::size_of::<T>())`; finally `length = buffer.byte_buffer.length /
mem::size_of::<T>()`. -/
def GLArray.new (k : Nat) (locs : String → Int) (attribs : List VertexAttribData)
    (mode : DrawMode) (buffer : GLBuffer) : Option GLArray :=
  if attribs.all (fun a => locs a.name != -1) then
    if attribSpan attribs = k then
      some { buffer := buffer, mode := mode.to_enum,
             length := buffer.byte_buffer.length / k }
    else none
  else none

/-- `GLArray::<T>::push`: `self.length += vs.len()` first, then the typed
buffer's push; its boolean result is returned as-is. -/
def GLArray.push (k : Nat) (a : GLArray) (vs : List (List Nat)) :
    Option (Bool × GLArray) :=
  match GLBuffer.push k a.buffer vs with
  | none => none
  | some (r, buf) =>
    some (r, { a with buffer := buf, length := a.length + vs.length })

/-- `GLArray::<T>::swap_remove`: the typed buffer's swap_remove, then
`self.length -= count` (a `usize` subtraction: underflow is a panic). -/
def GLArray.swap_remove (k : Nat) (a : GLArray) (idx count : Nat) : Option GLArray :=
  if (GLBuffer.swap_remove k a.buffer idx count).panicked then none
  else if count ≤ a.length then
    some { buffer := { byte_buffer := (GLBuffer.swap_remove k a.buffer idx count).st },
           mode := a.mode,
           length := a.length - count }
  else none

/-- `Shader`: a linked program with its memoized uniform-location map
(`uniforms: HashMap<String, GLint>`, modelled as an association list). -/
structure Shader where
  program : Nat
  uniforms : List (String × Int)

/-- The observable outcome of `Shader::get_uniform_location`: the location
returned, the shader afterwards, whether the device was queried
(`gl::GetUniformLocation`), and whether the call panicked. -/
structure UniformResult where
  loc : Int
  sh : Shader
  queried : Bool
  panicked : Bool

/-- `Shader::get_uniform_location`: an occupied map entry returns the cached
location without touching the device; a vacant entry queries
`gl::GetUniformLocation` (modelled by `dev`), panics
(`assert!(loc != -1)`) on -1, and otherwise inserts and returns the
location. -/
def Shader.get_uniform_location (s : Shader) (dev : String → Int) (name : String) :
    UniformResult :=
  match s.uniforms.lookup name with
  | some loc => { loc := loc, sh := s, queried := false, panicked := false }
  | none =>
    if dev name ≠ -1 then
      { loc := dev name, sh := { s with uniforms := (name, dev name) :: s.uniforms },
        queried := true, panicked := false }
    else
      { loc := -1, sh := s, queried := true, panicked := true }

/-- A concrete `GLArray` for exercising `GLArray::push` at its capacity:
element size 4, one element stored, byte buffer full at 4 of 4 bytes. -/
def arrayAtCapacity : GLArray :=
  { buffer := { byte_buffer := { data := fun _ => 0, length := 4, capacity := 4 } },
    mode := 4, length := 1 }

/-- A concrete typed buffer holding two 4-byte elements with distinct
bytes (byte `x` holds value `x`). -/
def twoElemBuffer : GLBuffer :=
  { byte_buffer := { data := fun x => x, length := 8, capacity := 8 } }

/-- **C10.** `Shader::get_uniform_location` queries the device at most once
per name.  A call on an uncached name whose device lookup succeeds
caches the location; any later call with the same name (against any device
state) is answered from the cache: no query, the cached value, the shader
unchanged, and no way to fail.  A device result of -1 on the first lookup
is fatal. -/
theorem shader_get_uniform_location_caches (s : Shader) (dev dev2 : String → Int)
    (name : String) (hmiss : s.uniforms.lookup name = none)
    (hdev : dev name ≠ -1) :
    (s.get_uniform_location dev name).panicked = false ∧
    (s.get_uniform_location dev name).queried = true ∧
    (s.get_uniform_location dev name).loc = dev name ∧
    ((s.get_uniform_location dev name).sh.get_uniform_location dev2 name).queried
      = false ∧
    ((s.get_uniform_location dev name).sh.get_uniform_location dev2 name).panicked
      = false ∧
    ((s.get_uniform_location dev name).sh.get_uniform_location dev2 name).loc
      = dev name ∧
    ((s.get_uniform_location dev name).sh.get_uniform_location dev2 name).sh
      = (s.get_uniform_location dev name).sh ∧
    (∀ d : String → Int, d name = -1 →
      (s.get_uniform_location d name).panicked = true) := by
  have h1 : s.get_uniform_location dev name =
      { loc := dev name,
        sh := { program := s.program, uniforms := (name, dev name) :: s.uniforms },
        queried := true, panicked := false } := by
    unfold Shader.get_uniform_location
    simp only [hmiss]
    rw [if_pos hdev]
  have h2 : (((name, dev name) :: s.uniforms).lookup name) = some (dev name) := by
    simp [List.lookup]
  have h3 : Shader.get_uniform_location
      { program := s.program, uniforms := (name, dev name) :: s.uniforms } dev2 name =
      { loc := dev name,
        sh := { program := s.program, uniforms := (name, dev name) :: s.uniforms },
        queried := false, panicked := false } := by
    unfold Shader.get_uniform_location
    simp only [h2]
  have h4 : ∀ d : String → Int, d name = -1 →
      (s.get_uniform_location d name).panicked = true := by
    intro d hd
    unfold Shader.get_uniform_location
    simp only [hmiss]
    rw [if_neg (by simp [hd])]
  rw [h1]
  simp [h3]
  exact h4

/-- **C10 witness**: a fresh shader, a device answering 3, a second device
answering 5: the first call caches 3 and the second call returns 3 without
querying. -/
theorem shader_get_uniform_location_caches_witness :
    (Shader.get_uniform_location ⟨7, []⟩ (fun _ => 3) "u").panicked = false ∧
    (Shader.get_uniform_location ⟨7, []⟩ (fun _ => 3) "u").queried = true ∧
    (Shader.get_uniform_location ⟨7, []⟩ (fun _ => 3) "u").loc = 3 ∧
    ((Shader.get_uniform_location ⟨7, []⟩ (fun _ => 3) "u").sh.get_uniform_location
      (fun _ => 5) "u").queried = false ∧
    ((Shader.get_uniform_location ⟨7, []⟩ (fun _ => 3) "u").sh.get_uniform_location
      (fun _ => 5) "u").panicked = false ∧
    ((Shader.get_uniform_location ⟨7, []⟩ (fun _ => 3) "u").sh.get_uniform_location
      (fun _ => 5) "u").loc = 3 ∧
    ((Shader.get_uniform_location ⟨7, []⟩ (fun _ => 3) "u").sh.get_uniform_location
      (fun _ => 5) "u").sh = (Shader.get_uniform_location ⟨7, []⟩ (fun _ => 3) "u").sh ∧
    (∀ d : String → Int, d "u" = -1 →
      (Shader.get_uniform_location ⟨7, []⟩ d "u").panicked = true) :=
  shader_get_uniform_location_caches ⟨7, []⟩ (fun _ => 3) (fun _ => 5) "u" rfl
    (by decide)

/-- **C7.** The typed buffer is a pure unit-conversion layer: `new` allocates
`element_capacity * sizeof(T)` bytes; `push`, `update` and `swap_remove`
multiply element counts and indices by `sizeof(T)` (`k`) and delegate to
the byte buffer; and an in-bounds `update(idx, vs)` rewrites exactly the
byte range `[idx*k, idx*k + len(vs)*k)` with the slice's bytes, leaving
every other byte, the length and the capacity unchanged. -/
theorem glBuffer_unit_conversion (k idx : Nat) (b : GLBuffer)
    (vs : List (List Nat))
    (h : k * idx + k * vs.length ≤ b.byte_buffer.length)
    (hc : b.byte_buffer.length ≤ b.byte_buffer.capacity) :
    (∀ mem0 c, (GLBuffer.new k mem0 c).byte_buffer.capacity = c * k ∧
      (GLBuffer.new k mem0 c).byte_buffer.length = 0) ∧
    (∀ b2 vs2, (GLBuffer.push k b2 vs2).map (fun p => (p.1, p.2.byte_buffer)) =
      b2.byte_buffer.push (serializeElems vs2) (k * vs2.length)) ∧
    (∀ b2 i2 vs2, (GLBuffer.update k b2 i2 vs2).map GLBuffer.byte_buffer =
      b2.byte_buffer.update (k * i2) (serializeElems vs2) (k * vs2.length)) ∧
    (∀ b2 i2 c2, GLBuffer.swap_remove k b2 i2 c2 =
      b2.byte_buffer.swap_remove (k * i2) (k * c2)) ∧
    (∃ b2, GLBuffer.update k b idx vs = some b2 ∧
      b2.byte_buffer.length = b.byte_buffer.length ∧
      b2.byte_buffer.capacity = b.byte_buffer.capacity ∧
      (∀ x, k * idx ≤ x → x < k * idx + k * vs.length →
        b2.byte_buffer.data x = serializeElems vs (x - k * idx)) ∧
      (∀ x, x < k * idx ∨ k * idx + k * vs.length ≤ x →
        b2.byte_buffer.data x = b.byte_buffer.data x)) := by
  refine ⟨fun mem0 c => ⟨rfl, rfl⟩, fun b2 vs2 => ?_, fun b2 i2 vs2 => ?_,
    fun b2 i2 c2 => rfl, ?_⟩
  · unfold GLBuffer.push
    cases hp : b2.byte_buffer.push (serializeElems vs2) (k * vs2.length) with
    | none => simp
    | some p => cases p with | mk r bb => simp
  · unfold GLBuffer.update
    cases hp : b2.byte_buffer.update (k * i2) (serializeElems vs2) (k * vs2.length) with
    | none => simp
    | some bb => simp
  · refine ⟨⟨⟨glBufferSubData b.byte_buffer.data (k * idx) (serializeElems vs) (k * vs.length), b.byte_buffer.length, b.byte_buffer.capacity⟩⟩, ?_, rfl, rfl, fun x hx1 hx2 => ?_, fun x hx => ?_⟩
    · unfold GLBuffer.update GLByteBuffer.update GLByteBuffer.update_inner
      rw [if_pos h, if_pos (le_trans h hc)]
    · show (if k * idx ≤ x ∧ x < k * idx + k * vs.length then
          serializeElems vs (x - k * idx) else b.byte_buffer.data x) =
        serializeElems vs (x - k * idx)
      rw [if_pos ⟨hx1, hx2⟩]
    · show (if k * idx ≤ x ∧ x < k * idx + k * vs.length then
          serializeElems vs (x - k * idx) else b.byte_buffer.data x) =
        b.byte_buffer.data x
      rw [if_neg]
      rcases hx with hx | hx <;> omega

/-- **C7 witness**: element size 4, a buffer with 8 live bytes of 8,
updating element 0 with one element. -/
theorem glBuffer_unit_conversion_witness :
    (∀ mem0 c, (GLBuffer.new 4 mem0 c).byte_buffer.capacity = c * 4 ∧
      (GLBuffer.new 4 mem0 c).byte_buffer.length = 0) ∧
    (∀ b2 vs2, (GLBuffer.push 4 b2 vs2).map (fun p => (p.1, p.2.byte_buffer)) =
      b2.byte_buffer.push (serializeElems vs2) (4 * vs2.length)) ∧
    (∀ b2 i2 vs2, (GLBuffer.update 4 b2 i2 vs2).map GLBuffer.byte_buffer =
      b2.byte_buffer.update (4 * i2) (serializeElems vs2) (4 * vs2.length)) ∧
    (∀ b2 i2 c2, GLBuffer.swap_remove 4 b2 i2 c2 =
      b2.byte_buffer.swap_remove (4 * i2) (4 * c2)) ∧
    (∃ b2, GLBuffer.update 4 ⟨⟨fun _ => 0, 8, 8⟩⟩ 0 [[1, 2, 3, 4]] = some b2 ∧
      b2.byte_buffer.length = 8 ∧
      b2.byte_buffer.capacity = 8 ∧
      (∀ x, 4 * 0 ≤ x → x < 4 * 0 + 4 * 1 →
        b2.byte_buffer.data x = serializeElems [[1, 2, 3, 4]] (x - 4 * 0)) ∧
      (∀ x, x < 4 * 0 ∨ 4 * 0 + 4 * 1 ≤ x →
        b2.byte_buffer.data x = 0)) :=
  glBuffer_unit_conversion 4 0 ⟨⟨fun _ => 0, 8, 8⟩⟩ [[1, 2, 3, 4]] (by decide)
    (by decide)

/-- Helper: `GLByteBuffer::push` in the capacity-exceeded case returns
`false` and leaves the buffer untouched. -/
theorem GLByteBuffer.push_spec_overflow (b : GLByteBuffer) (vs : Nat → Nat)
    (count : Nat) (h : b.capacity < b.length + count) :
    b.push vs count = some (false, b) := by
  unfold GLByteBuffer.push
  rw [if_pos h]

/-- Helper: `GLByteBuffer::push` in the in-capacity case writes the bytes at
the tail offset and advances `length` by `count`, returning `true`. -/
theorem GLByteBuffer.push_spec_success (b : GLByteBuffer) (vs : Nat → Nat)
    (count : Nat) (h : b.length + count ≤ b.capacity) :
    b.push vs count =
      some (true, { data := glBufferSubData b.data b.length vs count,
                    length := b.length + count, capacity := b.capacity }) := by
  unfold GLByteBuffer.push GLByteBuffer.update_inner
  rw [if_neg (not_lt.mpr h), if_pos h]

/-- Helper: `GLByteBuffer::swap_remove` never grows `length` and never
changes `capacity`, whatever branch it takes. -/
theorem GLByteBuffer.swap_remove_st_shape (b : GLByteBuffer) (i count : Nat) :
    (b.swap_remove i count).st.length ≤ b.length ∧
    (b.swap_remove i count).st.capacity = b.capacity := by
  unfold GLByteBuffer.swap_remove GLByteBuffer.swap_remove_after_shrink
  split_ifs <;> simp

/-- Helper: one non-panicking `GLByteBuffer` call preserves
`length ≤ capacity`. -/
theorem bufStep_preserves (op : BufOp) (b b2 : GLByteBuffer)
    (h : b.length ≤ b.capacity) (hs : bufStep op b = some b2) :
    b2.length ≤ b2.capacity := by
  cases op with
  | push vs count =>
    simp only [bufStep] at hs
    rcases Nat.lt_or_ge b.capacity (b.length + count) with hc | hc
    · rw [GLByteBuffer.push_spec_overflow b vs count hc] at hs
      simp at hs
      subst hs
      exact h
    · rw [GLByteBuffer.push_spec_success b vs count hc] at hs
      simp at hs
      subst hs
      simpa using hc
  | update idx vs count =>
    simp only [bufStep, GLByteBuffer.update, GLByteBuffer.update_inner] at hs
    split_ifs at hs
    simp at hs
    subst hs
    simpa using h
  | swap_remove i count =>
    simp only [bufStep] at hs
    split_ifs at hs with hp
    simp at hs
    subst hs
    have hshape := GLByteBuffer.swap_remove_st_shape b i count
    omega

/-- Helper: a whole sequence of non-panicking `GLByteBuffer` calls preserves
`length ≤ capacity`. -/
theorem runBufOps_preserves (ops : List BufOp) (b : GLByteBuffer)
    (h : b.length ≤ b.capacity) :
    ∀ b2, runBufOps ops b = some b2 → b2.length ≤ b2.capacity := by
  induction ops generalizing b with
  | nil =>
    intro b2 hb
    unfold runBufOps at hb
    simp at hb
    subst hb
    exact h
  | cons op rest ih =>
    intro b2 hb
    unfold runBufOps at hb
    cases hstep : bufStep op b with
    | none => rw [hstep] at hb; simp at hb
    | some bm =>
      rw [hstep] at hb
      exact ih bm (bufStep_preserves op b bm h hstep) b2 hb

/-- **C1 (code bug).** `GLArray::push` runs `self.length += vs.len()` before
delegating and does not roll the increment back when the delegate returns
`false`: pushing one 4-byte element into a full one-element `GLArray`
returns `false`, yet `length` ends at 2 while the byte buffer still holds
4 bytes, so `length ≠ buffer.byte_buffer.length / sizeof(T)` on this
return path. -/
theorem glArray_push_failure_desyncs_length :
    (GLArray.push 4 arrayAtCapacity [[1, 2, 3, 4]]).map
        (fun p => (p.1, p.2.length, p.2.buffer.byte_buffer.length)) =
      some (false, 2, 4) ∧ (2 : Nat) ≠ 4 / 4 := by
  exact ⟨rfl, by decide⟩

/-- **C2.** Starting from any byte buffer satisfying `length ≤ capacity`,
every call sequence of push/update/swap_remove that returns leaves
`0 ≤ length ≤ capacity`; a push with `length + len(data) > capacity`
returns `false` and performs no mutation; a push that fits writes the bytes
at the tail offset and advances `length` by `len(data)`. -/
theorem byteBuffer_capacity_invariant (b : GLByteBuffer)
    (h : b.length ≤ b.capacity) :
    (∀ ops b2, runBufOps ops b = some b2 →
      0 ≤ b2.length ∧ b2.length ≤ b2.capacity) ∧
    (∀ vs count, b.capacity < b.length + count →
      b.push vs count = some (false, b)) ∧
    (∀ vs count, b.length + count ≤ b.capacity →
      b.push vs count =
        some (true, { data := glBufferSubData b.data b.length vs count,
                      length := b.length + count, capacity := b.capacity })) := by
  refine ⟨fun ops b2 hb => ⟨Nat.zero_le _, runBufOps_preserves ops b h b2 hb⟩,
    fun vs count hc => GLByteBuffer.push_spec_overflow b vs count hc,
    fun vs count hc => GLByteBuffer.push_spec_success b vs count hc⟩

/-- **C2 witness**: the invariant theorem applied to a fresh 12-byte buffer. -/
theorem byteBuffer_capacity_invariant_witness :
    (∀ ops b2, runBufOps ops ⟨fun _ => 0, 0, 12⟩ = some b2 →
      0 ≤ b2.length ∧ b2.length ≤ b2.capacity) ∧
    (∀ vs count, (12 : Nat) < 0 + count →
      GLByteBuffer.push ⟨fun _ => 0, 0, 12⟩ vs count =
        some (false, ⟨fun _ => 0, 0, 12⟩)) ∧
    (∀ vs count, 0 + count ≤ (12 : Nat) →
      GLByteBuffer.push ⟨fun _ => 0, 0, 12⟩ vs count =
        some (true, { data := glBufferSubData (fun _ => 0) 0 vs count,
                      length := 0 + count, capacity := 12 })) :=
  byteBuffer_capacity_invariant ⟨fun _ => 0, 0, 12⟩ (by decide)

/-- **C4.** `GLByteBuffer::swap_remove(i, count)` returns without a panic
exactly when `count ≤ length` and, with `length` already shrunk by `count`,
`i ≤ length` and — whenever a copy is needed, i.e. `i` is strictly below
the post-shrink length — `i` stays below the post-shrink length minus
`count` (the non-overlap bound, stated over the integers).  In particular
the boundary `i = length - count` after shrinking and the tail case
`i = post-shrink length` are accepted. -/
theorem byteBuffer_swap_remove_panic_iff (b : GLByteBuffer) (i count : Nat) :
    (b.swap_remove i count).panicked = false ↔
      (count ≤ b.length ∧ (i : Int) ≤ (b.length : Int) - (count : Int) ∧
        ((i : Int) < (b.length : Int) - (count : Int) →
          (i : Int) ≤ (b.length : Int) - (count : Int) - (count : Int))) := by
  unfold GLByteBuffer.swap_remove GLByteBuffer.swap_remove_after_shrink
  split_ifs <;> simp_all <;> omega

/-- **C9.** When `GLByteBuffer::swap_remove` panics after its first assert
passed (`count ≤ length`), the length decrement has already happened: the
state at the panic has `length = old length - count` (data and capacity
untouched).  When the first assert itself fails (`count > length`), the
panic happens before any mutation and the state is unchanged. -/
theorem byteBuffer_swap_remove_panic_state (b : GLByteBuffer) (i count : Nat)
    (h : (b.swap_remove i count).panicked = true) :
    (count ≤ b.length →
      (b.swap_remove i count).st.length = b.length - count ∧
      (b.swap_remove i count).st.data = b.data ∧
      (b.swap_remove i count).st.capacity = b.capacity) ∧
    (b.length < count → (b.swap_remove i count).st = b) := by
  unfold GLByteBuffer.swap_remove GLByteBuffer.swap_remove_after_shrink at h ⊢
  split_ifs at h ⊢ <;> simp_all

/-- **C9 witness**: removing 2 bytes at index 10 of a 4-byte-long buffer
panics on the post-shrink index check, with `length` already shrunk to 2. -/
theorem byteBuffer_swap_remove_panic_state_witness :
    ((2 : Nat) ≤ 4 →
      (GLByteBuffer.swap_remove ⟨fun _ => 0, 4, 8⟩ 10 2).st.length = 4 - 2 ∧
      (GLByteBuffer.swap_remove ⟨fun _ => 0, 4, 8⟩ 10 2).st.data = (fun _ => 0) ∧
      (GLByteBuffer.swap_remove ⟨fun _ => 0, 4, 8⟩ 10 2).st.capacity = 8) ∧
    ((4 : Nat) < 2 →
      (GLByteBuffer.swap_remove ⟨fun _ => 0, 4, 8⟩ 10 2).st = ⟨fun _ => 0, 4, 8⟩) :=
  byteBuffer_swap_remove_panic_state ⟨fun _ => 0, 4, 8⟩ 10 2 (by decide)

/-- **C5 counterexample.** `GL_INVALID_VALUE` (1281) is not `NO_ERROR` (0),
yet the error poll of `GLByteBuffer::new` only warns, and so does the poll
of `GLArray::new`: not every non-"no error" code is fatal. -/
theorem errorPoll_invalid_value_not_fatal :
    glINVALID_VALUE ≠ glNO_ERROR ∧
    byteBufferNewErrorCheck glINVALID_VALUE = GLErrorOutcome.warned ∧
    glArrayNewErrorCheck glINVALID_VALUE = GLErrorOutcome.warned := by
  refine ⟨by decide, by decide, by decide⟩

/-- **C5 (amended).** The construction-time error polls behave as follows:
`GLByteBuffer::new` treats exactly `OUT_OF_MEMORY` as fatal and any other
non-"no error" code as a logged warning; `GLArray::new` treats no code as
fatal, warning on every non-"no error" code. -/
theorem errorPoll_fatal_iff_out_of_memory (err : Nat) :
    (byteBufferNewErrorCheck err = GLErrorOutcome.fatal ↔ err = glOUT_OF_MEMORY) ∧
    (byteBufferNewErrorCheck err = GLErrorOutcome.ok ↔ err = glNO_ERROR) ∧
    glArrayNewErrorCheck err ≠ GLErrorOutcome.fatal ∧
    (glArrayNewErrorCheck err = GLErrorOutcome.ok ↔ err = glNO_ERROR) := by
  unfold byteBufferNewErrorCheck glArrayNewErrorCheck glNO_ERROR glOUT_OF_MEMORY
  refine ⟨?_, ?_, ?_, ?_⟩ <;> split_ifs <;> simp_all

/-- **C6 counterexample.** When the device returns id 0,
`ArrayHandle::new` succeeds and stores the zero id: the vertex-array handle
constructor does not assert the generated id is non-zero. -/
theorem arrayHandle_new_accepts_zero :
    ArrayHandle.new 0 = some 0 :=
  rfl

/-- **C6 (amended).** The buffer-handle, program-handle and shader-handle
constructors panic exactly when the device returns id 0, but
`ArrayHandle::new` performs no such check and succeeds on every id,
including 0. -/
theorem handle_constructors_nonzero (gl_id : Nat) :
    (BufferHandle.new gl_id = none ↔ gl_id = 0) ∧
    (ProgramHandle.new gl_id = none ↔ gl_id = 0) ∧
    (∀ st : Int, ShaderHandle.compile_from 0 st = none) ∧
    (∀ st : Int, st = 1 → (ShaderHandle.compile_from gl_id st = none ↔ gl_id = 0)) ∧
    ArrayHandle.new gl_id = some gl_id := by
  unfold BufferHandle.new ProgramHandle.new ShaderHandle.compile_from ArrayHandle.new
  refine ⟨?_, ?_, ?_, ?_, rfl⟩ <;> split_ifs <;> simp_all

/-- Helper: the wrapped `u32` accumulation of `attrib_span` computes the
mathematical byte-width sum modulo 2^32. -/
theorem attribSpan_foldl_eq (l : List VertexAttribData) :
    ∀ acc, acc < u32Mod →
      l.foldl (fun acc a => (acc + a.size * a.unit.size % u32Mod) % u32Mod) acc =
        (acc + attribByteWidthSum l) % u32Mod := by
  induction l with
  | nil =>
    intro acc hacc
    simp [attribByteWidthSum, Nat.mod_eq_of_lt hacc]
  | cons a t ih =>
    intro acc hacc
    simp only [List.foldl_cons]
    rw [ih _ (Nat.mod_lt _ (by unfold u32Mod; omega))]
    simp only [attribByteWidthSum, List.map_cons, List.sum_cons]
    unfold u32Mod
    omega

/-- **C8.** Provided every supplied attribute resolves against the shader
and the attributes' total byte width does not overflow `u32`,
`GLArray::new` fails fatally iff the sum of the attributes' byte widths
(component count times component-type size, summed in order) differs from
`sizeof(T)`; when they agree, construction succeeds with the element
length computed from the buffer.  The span assertion runs at
construction, after the binding loop. -/
theorem glArray_new_span_check (k : Nat) (locs : String → Int)
    (attribs : List VertexAttribData) (mode : DrawMode) (buffer : GLBuffer)
    (hfound : ∀ a ∈ attribs, locs a.name ≠ -1)
    (hsum : attribByteWidthSum attribs < u32Mod) :
    (GLArray.new k locs attribs mode buffer = none ↔
      attribByteWidthSum attribs ≠ k) ∧
    (attribByteWidthSum attribs = k →
      GLArray.new k locs attribs mode buffer =
        some { buffer := buffer, mode := mode.to_enum,
               length := buffer.byte_buffer.length / k }) := by
  have hall : attribs.all (fun a => locs a.name != -1) = true := by
    rw [List.all_eq_true]
    intro a ha
    simpa using hfound a ha
  have hspan : attribSpan attribs = attribByteWidthSum attribs := by
    unfold attribSpan
    rw [attribSpan_foldl_eq attribs 0 (by unfold u32Mod; omega)]
    simpa using Nat.mod_eq_of_lt hsum
  unfold GLArray.new
  simp only [hall, hspan]
  split_ifs with h1 hk <;> simp_all

/-- **C8 witness**: two float attributes of 2 and 3 components (20 bytes)
against a 24-byte element type make construction fail; the same span
against `k = 20` would succeed. -/
theorem glArray_new_span_check_witness :
    (GLArray.new 24 (fun _ => 0)
        [⟨"pos", 2, GLType.Float⟩, ⟨"uv", 3, GLType.Float⟩]
        DrawMode.Triangles ⟨⟨fun _ => 0, 0, 0⟩⟩ = none ↔
      attribByteWidthSum [⟨"pos", 2, GLType.Float⟩, ⟨"uv", 3, GLType.Float⟩] ≠ 24) ∧
    (attribByteWidthSum [⟨"pos", 2, GLType.Float⟩, ⟨"uv", 3, GLType.Float⟩] = 24 →
      GLArray.new 24 (fun _ => 0)
          [⟨"pos", 2, GLType.Float⟩, ⟨"uv", 3, GLType.Float⟩]
          DrawMode.Triangles ⟨⟨fun _ => 0, 0, 0⟩⟩ =
        some { buffer := ⟨⟨fun _ => 0, 0, 0⟩⟩, mode := DrawMode.Triangles.to_enum,
               length := 0 / 24 }) :=
  glArray_new_span_check 24 (fun _ => 0)
    [⟨"pos", 2, GLType.Float⟩, ⟨"uv", 3, GLType.Float⟩]
    DrawMode.Triangles ⟨⟨fun _ => 0, 0, 0⟩⟩ (by decide) (by decide)

/-- Helper: `a < b` and `m < k` give `a*k + m < b*k`. -/
theorem mul_add_lt_mul (a b m k : Nat) (hab : a < b) (hm : m < k) :
    a * k + m < b * k := by
  calc a * k + m < a * k + k := by omega
  _ = (a + 1) * k := by ring
  _ ≤ b * k := Nat.mul_le_mul_right k (by omega)

/-- Helper: the copy branch of the post-shrink part of
`GLByteBuffer::swap_remove`. -/
theorem GLByteBuffer.swap_remove_after_shrink_copy (b1 : GLByteBuffer)
    (i count : Nat) (h2 : i < b1.length) (h3 : count ≤ b1.length)
    (h4 : i ≤ b1.length - count) :
    b1.swap_remove_after_shrink i count =
      { st := { b1 with data := glCopyBufferSubData b1.data b1.length i count },
        panicked := false, copied := true } := by
  unfold GLByteBuffer.swap_remove_after_shrink
  rw [if_pos (le_of_lt h2), if_pos h2, if_pos h3, if_pos h4]

/-- Helper: the tail branch of the post-shrink part of
`GLByteBuffer::swap_remove` (no copy). -/
theorem GLByteBuffer.swap_remove_after_shrink_tail (b1 : GLByteBuffer)
    (i count : Nat) (h2 : i = b1.length) :
    b1.swap_remove_after_shrink i count =
      { st := b1, panicked := false, copied := false } := by
  unfold GLByteBuffer.swap_remove_after_shrink
  rw [if_pos (le_of_eq h2), if_neg (by omega)]

/-- Helper: `GLByteBuffer::swap_remove` in the copy case: shrink by `count`
and copy the (old) last `count` live bytes over offsets `[i, i+count)`. -/
theorem GLByteBuffer.swap_remove_copy_branch (b : GLByteBuffer) (i count : Nat)
    (h1 : count ≤ b.length) (h2 : i < b.length - count)
    (h3 : count ≤ b.length - count) (h4 : i ≤ b.length - count - count) :
    b.swap_remove i count =
      { st := { data := glCopyBufferSubData b.data (b.length - count) i count,
                length := b.length - count, capacity := b.capacity },
        panicked := false, copied := true } := by
  unfold GLByteBuffer.swap_remove
  rw [if_pos h1]
  exact GLByteBuffer.swap_remove_after_shrink_copy _ i count h2 h3 h4

/-- Helper: `GLByteBuffer::swap_remove` in the tail case (`i` equals the
post-shrink length): only the length changes, no copy. -/
theorem GLByteBuffer.swap_remove_tail_branch (b : GLByteBuffer) (i count : Nat)
    (h1 : count ≤ b.length) (h2 : i = b.length - count) :
    b.swap_remove i count =
      { st := { data := b.data, length := b.length - count, capacity := b.capacity },
        panicked := false, copied := false } := by
  unfold GLByteBuffer.swap_remove
  rw [if_pos h1]
  exact GLByteBuffer.swap_remove_after_shrink_tail _ i count h2

/-- **C3.** On a typed buffer of `n` elements of size `k`,
`swap_remove(i, 1)` with `i ≤ n-1` succeeds, leaves `n-1` elements, and
the elements afterwards are the old ones with element `i` replaced by the
old last element (a no-op replacement when `i = n-1`); in the tail case
`i = n-1` no device copy is issued and the bytes are untouched — only the
length changes. -/
theorem glBuffer_swap_remove_single (k n i : Nat) (b : GLBuffer)
    (hk : 0 < k) (hn : 0 < n) (hi : i ≤ n - 1)
    (hlen : b.byte_buffer.length = n * k) :
    (GLBuffer.swap_remove k b i 1).panicked = false ∧
    (GLBuffer.swap_remove k b i 1).st.length = (n - 1) * k ∧
    (∀ j, j < n - 1 →
      elemAt k (GLBuffer.swap_remove k b i 1).st.data j =
        if j = i then elemAt k b.byte_buffer.data (n - 1)
        else elemAt k b.byte_buffer.data j) ∧
    (i = n - 1 →
      (GLBuffer.swap_remove k b i 1).copied = false ∧
      ∀ x, (GLBuffer.swap_remove k b i 1).st.data x = b.byte_buffer.data x) := by
  have e2 : b.byte_buffer.length - k * 1 = (n - 1) * k := by
    rw [hlen, Nat.sub_mul, one_mul, mul_one]
  have h1 : k * 1 ≤ b.byte_buffer.length := by
    rw [hlen, mul_one]
    calc k = 1 * k := (one_mul k).symm
    _ ≤ n * k := Nat.mul_le_mul_right k hn
  rcases Nat.lt_or_ge i (n - 1) with hcase | hcase
  · -- copy case: i < n - 1
    have h2 : k * i < b.byte_buffer.length - k * 1 := by
      rw [e2, mul_comm (n - 1) k]
      exact (Nat.mul_lt_mul_left hk).mpr hcase
    have h3 : k * 1 ≤ b.byte_buffer.length - k * 1 := by
      rw [e2, mul_one]
      calc k = 1 * k := (one_mul k).symm
      _ ≤ (n - 1) * k := Nat.mul_le_mul_right k (by omega)
    have e3 : b.byte_buffer.length - k * 1 - k * 1 = (n - 2) * k := by
      rw [e2, Nat.sub_mul n 2 k, Nat.sub_mul n 1 k]
      have e4 : 2 * k = 1 * k + k * 1 := by ring
      generalize n * k = m at *
      omega
    have h4 : k * i ≤ b.byte_buffer.length - k * 1 - k * 1 := by
      rw [e3, mul_comm k i]
      exact Nat.mul_le_mul_right k (by omega)
    unfold GLBuffer.swap_remove
    rw [GLByteBuffer.swap_remove_copy_branch _ _ _ h1 h2 h3 h4]
    refine ⟨rfl, e2, ?_, fun hieq => absurd hieq (by omega)⟩
    intro j hj
    by_cases hji : j = i
    · subst hji
      rw [if_pos rfl]
      unfold elemAt
      apply List.map_congr_left
      intro m hm
      rw [List.mem_range] at hm
      show (if k * j ≤ j * k + m ∧ j * k + m < k * j + k * 1 then
          b.byte_buffer.data (b.byte_buffer.length - k * 1 + (j * k + m - k * j))
        else b.byte_buffer.data (j * k + m)) = b.byte_buffer.data ((n - 1) * k + m)
      rw [if_pos ⟨by rw [mul_comm j k]; exact Nat.le_add_right _ _,
        by rw [mul_comm j k, mul_one]; exact Nat.add_lt_add_left hm _⟩]
      rw [mul_comm j k, Nat.add_sub_cancel_left, e2]
    · rw [if_neg hji]
      unfold elemAt
      apply List.map_congr_left
      intro m hm
      rw [List.mem_range] at hm
      show (if k * i ≤ j * k + m ∧ j * k + m < k * i + k * 1 then
          b.byte_buffer.data (b.byte_buffer.length - k * 1 + (j * k + m - k * i))
        else b.byte_buffer.data (j * k + m)) = b.byte_buffer.data (j * k + m)
      rw [if_neg ?hcond]
      case hcond =>
        rcases Nat.lt_or_ge j i with hji2 | hji2
        · rintro ⟨ha, _⟩
          have hlt : j * k + m < i * k := mul_add_lt_mul j i m k hji2 hm
          rw [mul_comm i k] at hlt
          exact absurd ha (not_le.mpr hlt)
        · have hji3 : i < j := lt_of_le_of_ne hji2 (Ne.symm hji)
          rintro ⟨_, hb⟩
          have hle : (i + 1) * k ≤ j * k := Nat.mul_le_mul_right k hji3
          have e4 : (i + 1) * k = k * i + k * 1 := by ring
          exact absurd hb (not_lt.mpr (le_trans (le_of_eq e4.symm)
            (le_trans hle (Nat.le_add_right _ m))))
  · -- tail case: i = n - 1
    have hieq : i = n - 1 := le_antisymm hi hcase
    have h2 : k * i = b.byte_buffer.length - k * 1 := by
      rw [e2, hieq, mul_comm]
    unfold GLBuffer.swap_remove
    rw [GLByteBuffer.swap_remove_tail_branch _ _ _ h1 h2]
    refine ⟨rfl, e2, ?_, fun _ => ⟨rfl, fun x => rfl⟩⟩
    intro j hj
    rw [if_neg (by omega)]

/-- **C3 witness**: a two-element buffer of 4-byte elements, removing
element 0: the survivor is the former element 1. -/
theorem glBuffer_swap_remove_single_witness :
    (GLBuffer.swap_remove 4 twoElemBuffer 0 1).panicked = false ∧
    (GLBuffer.swap_remove 4 twoElemBuffer 0 1).st.length = (2 - 1) * 4 ∧
    (∀ j, j < 2 - 1 →
      elemAt 4 (GLBuffer.swap_remove 4 twoElemBuffer 0 1).st.data j =
        if j = 0 then elemAt 4 twoElemBuffer.byte_buffer.data (2 - 1)
        else elemAt 4 twoElemBuffer.byte_buffer.data j) ∧
    (0 = 2 - 1 →
      (GLBuffer.swap_remove 4 twoElemBuffer 0 1).copied = false ∧
      ∀ x, (GLBuffer.swap_remove 4 twoElemBuffer 0 1).st.data x =
        twoElemBuffer.byte_buffer.data x) :=
  glBuffer_swap_remove_single 4 2 0 twoElemBuffer (by decide) (by decide)
    (by decide) rfl
